import Mathlib

/-!
Verification development for the Machine-Data-Extractor plugin.

The development shallowly embeds the two core source files:
`stavily_agent_client.py` (JSON-RPC client over a Unix socket) and
`src/monitoring/monitor.py` (threshold monitor), together with
`src/utils/validation.py`.

Modelling conventions:
* Python values that flow through the JSON layer are modelled by the
  inductive `PyVal` (None, bool, int, float, str, list, dict).  Numbers are
  carried as rationals: the code only ever compares numbers, and comparison
  of Python ints/floats agrees with comparison of the exact rational values.
* Exceptions become the inductive `PyErr`; fallible code returns
  `Except PyErr _`.
* The network is modelled by a list of `TransportOutcome`s: each socket
  round trip performed by `_call` consumes the next outcome (an exhausted
  list behaves like an unreachable socket).
* Mutable client state (`_request_id`, `_connected`) plus the constructor
  configuration is the structure `ClientState`; each operation returns an
  `OpResult` carrying its result, the updated state, the remaining world,
  the JSON-RPC request envelopes it built, and the sleeps it performed.
-/

/-- A Python/JSON value as it appears in this program. -/
inductive PyVal : Type where
  | pynone : PyVal
  | pybool : Bool → PyVal
  | pyint : Int → PyVal
  | pyfloat : Rat → PyVal
  | pystr : String → PyVal
  | pylist : List PyVal → PyVal
  | pydict : List (String × PyVal) → PyVal

/-- Association-list lookup for modelled Python dicts (first binding wins). -/
def slookup : List (String × PyVal) → String → Option PyVal
  | [], _ => none
  | (k, v) :: rest, key => if k = key then some v else slookup rest key

/-- Numeric view of a Python value: `isinstance(v, (int, float))` is true
exactly when this is `some`; `bool` is a subclass of `int` in Python. -/
def pyNumQ : PyVal → Option Rat
  | .pybool b => some (if b then 1 else 0)
  | .pyint n => some (n : Rat)
  | .pyfloat q => some q
  | _ => none

/-- `isinstance(v, (int, float))` as used on the CPU branch of
`should_trigger`. -/
def isNumericVal (v : PyVal) : Bool := (pyNumQ v).isSome

/-- Python truthiness of the values this program passes as `params`. -/
def pyTruthy : PyVal → Bool
  | .pynone => false
  | .pybool b => b
  | .pyint n => n ≠ 0
  | .pyfloat q => q ≠ 0
  | .pystr s => s ≠ ""
  | .pylist xs => !xs.isEmpty
  | .pydict kvs => !kvs.isEmpty

/-- Exceptions raised by the embedded code.  `connectionError` carries the
wrapped last error for the final raise in `connect()` (the Python code
interpolates `str(last_error)` into the message; the structured field is the
shallow-embedding analogue).  `rpcError` stores the peer values verbatim. -/
inductive PyErr : Type where
  | connectionError : String → Option PyErr → PyErr
  | rpcError : PyVal → PyVal → Option PyVal → PyErr
  | timeoutError : String → PyErr
  | stavilyAgentError : String → PyErr
  | validationError : String → PyErr
  | valueError : String → PyErr
  | typeError : String → PyErr
  | keyError : String → PyErr
  | attributeError : String → PyErr

/-- Whether an exception is part of the client error taxonomy, i.e. a
subclass of `StavilyAgentError` in `stavily_agent_client.py`. -/
def isStavilyAgentError : PyErr → Bool
  | .connectionError _ _ => true
  | .rpcError _ _ _ => true
  | .timeoutError _ => true
  | .stavilyAgentError _ => true
  | _ => false

/-- Python membership test `key in v` for the shapes this program meets:
dict keys, list elements, substring of a string; other receivers raise
`TypeError` (as `'x' in 3` does). -/
def pyContains (v : PyVal) (key : String) : Except PyErr Bool :=
  match v with
  | .pydict kvs => .ok (kvs.any fun kv => kv.1 = key)
  | .pylist xs => .ok (xs.any fun x => match x with | .pystr s => s = key | _ => false)
  | .pystr s => .ok (decide (List.IsInfix key.toList s.toList))
  | _ => .error (.typeError "argument of type is not iterable")

/-- Python subscript `v[key]` with a string key: succeeds only on a dict
holding the key; missing key is `KeyError`, a non-dict receiver is
`TypeError` (lists and strings reject string indices). -/
def pyGetItem (v : PyVal) (key : String) : Except PyErr PyVal :=
  match v with
  | .pydict kvs =>
    match slookup kvs key with
    | some x => .ok x
    | none => .error (.keyError key)
  | _ => .error (.typeError "object is not subscriptable with a string key")

/-- Python `v.get(key, default)`: only dicts have `.get`; any other
receiver (in particular `None`) raises `AttributeError`. -/
def pyGetDefault (v : PyVal) (key : String) (dflt : PyVal) : Except PyErr PyVal :=
  match v with
  | .pydict kvs => .ok ((slookup kvs key).getD dflt)
  | _ => .error (.attributeError "get")

/-- Python `v > t` for a numeric `t`: numbers (bools included) compare by
value, any other operand raises `TypeError`. -/
def pyGtNum (v : PyVal) (t : Rat) : Except PyErr Bool :=
  match pyNumQ v with
  | some q => .ok (decide (q > t))
  | none => .error (.typeError "comparison not supported between these instances")

/-- One socket round trip as seen by `_call`: the connect/send/recv block
either fails at the socket layer, yields an empty or non-JSON payload, or
yields a parsed JSON object. -/
inductive TransportOutcome : Type where
  | timeout : TransportOutcome
  | sockError : String → TransportOutcome
  | emptyResponse : TransportOutcome
  | badJson : String → TransportOutcome
  | response : List (String × PyVal) → TransportOutcome

/-- The outcome the next round trip will see; an exhausted world behaves
like an unreachable socket (`connect(2)` refused). -/
def headOutcome : List TransportOutcome → TransportOutcome
  | [] => .sockError "connection refused"
  | o :: _ => o

/-- Mutable state of one `StavilyAgentClient` instance plus its constructor
configuration (`timeout`, `max_retries`, `retry_delay`). -/
structure ClientState : Type where
  timeout : Rat
  maxRetries : Nat
  retryDelay : Rat
  requestId : Nat
  connected : Bool

/-- A built JSON-RPC request envelope. -/
structure RPCRequest : Type where
  jsonrpc : String
  method : String
  id : Nat
  params : Option PyVal

/-- Result of running one client operation: the value or exception, the
updated client state, the remaining world, the request envelopes issued
(in order), and the sleeps performed (in order). -/
structure OpResult (α : Type) : Type where
  res : Except PyErr α
  state : ClientState
  world : List TransportOutcome
  sent : List RPCRequest
  sleeps : List Rat

namespace StavilyAgentClient

/-- `StavilyAgentClient.__init__` with the default keyword arguments: the
socket path comes from the environment; without it the constructor raises
`ValueError`. -/
def mkDefault (envSocket : Option String) : Except PyErr ClientState :=
  match envSocket with
  | none => .error (.valueError "Socket path not provided and STAVILY_AGENT_SOCKET not set")
  | some _ => .ok ⟨5, 3, 1, 0, false⟩

/-- The error-member handling of `_call`: `response["error"]` is accessed
with `error["code"]`, `error["message"]`, `error.get("data")`. -/
def respError (errv : PyVal) : PyErr :=
  match errv with
  | .pydict e =>
    match slookup e "code" with
    | none => .keyError "code"
    | some c =>
      match slookup e "message" with
      | none => .keyError "message"
      | some m => .rpcError c m (slookup e "data")
  | _ => .typeError "object is not subscriptable with a string key"

/-- `StavilyAgentClient._call`: builds the envelope (incrementing
`_request_id` first, omitting falsy `params`), performs one socket round
trip, maps socket failures to the taxonomy, raises `RPCError` on an
`"error"` member, and otherwise returns `response.get("result")`. -/
def call (st : ClientState) (w : List TransportOutcome) (method : String)
    (params : Option PyVal) : OpResult PyVal :=
  let rid := st.requestId + 1
  let st1 : ClientState := { st with requestId := rid }
  let sentParams : Option PyVal :=
    match params with
    | some p => if pyTruthy p then some p else none
    | none => none
  let req : RPCRequest := ⟨"2.0", method, rid, sentParams⟩
  let res : Except PyErr PyVal :=
    match headOutcome w with
    | .timeout => .error (.timeoutError ("RPC call to " ++ method ++ " timed out"))
    | .sockError m =>
      .error (.connectionError ("Socket error during RPC call to " ++ method ++ ": " ++ m) none)
    | .emptyResponse => .error (.connectionError "Empty response from agent" none)
    | .badJson m => .error (.stavilyAgentError ("Invalid JSON response from agent: " ++ m))
    | .response r =>
      match slookup r "error" with
      | some errv => .error (respError errv)
      | none => .ok ((slookup r "result").getD .pynone)
  ⟨res, st1, w.tail, [req], []⟩

/-- Whether a transport outcome lets `_call` succeed: only a parsed JSON
response without an `"error"` member does. -/
def outcomeOk : TransportOutcome → Bool
  | .response r => (slookup r "error").isNone
  | _ => false

/-- The message of the final raise in `connect()`. -/
def connectFailMsg (total : Nat) : String :=
  "Failed to connect to agent after " ++ toString total ++ " attempts"

/-- The retry loop body of `connect()`: `total` is `max_retries + 1` (used
in the final message), `fuel` the remaining iterations; a failed attempt
sleeps `retry_delay` unless it was the last one, exhaustion raises
`ConnectionError` wrapping the last error. -/
def connectAux (total : Nat) : Nat → ClientState → List TransportOutcome → OpResult Unit
  | 0, st, w =>
    ⟨.error (.connectionError (connectFailMsg total) none), st, w, [], []⟩
  | 1, st, w =>
    let c := call st w "ping" (some (.pydict []))
    match c.res with
    | .ok _ => ⟨.ok (), { c.state with connected := true }, c.world, c.sent, []⟩
    | .error e =>
      ⟨.error (.connectionError (connectFailMsg total) (some e)),
        c.state, c.world, c.sent, []⟩
  | fuel + 2, st, w =>
    let c := call st w "ping" (some (.pydict []))
    match c.res with
    | .ok _ => ⟨.ok (), { c.state with connected := true }, c.world, c.sent, []⟩
    | .error _ =>
      let rest := connectAux total (fuel + 1) c.state c.world
      ⟨rest.res, rest.state, rest.world, c.sent ++ rest.sent,
        st.retryDelay :: rest.sleeps⟩

/-- `StavilyAgentClient.connect`: a no-op when already connected, otherwise
up to `max_retries + 1` ping probes through the normal call path. -/
def connect (st : ClientState) (w : List TransportOutcome) : OpResult Unit :=
  if st.connected then ⟨.ok (), st, w, [], []⟩
  else connectAux (st.maxRetries + 1) (st.maxRetries + 1) st w

/-- `StavilyAgentClient.disconnect`: sets the flag, nothing else. -/
def disconnect (st : ClientState) : ClientState := { st with connected := false }

/-- `StavilyAgentClient.is_connected`. -/
def is_connected (st : ClientState) : Bool := st.connected

/-- `StavilyAgentClient.report_trigger`. -/
def report_trigger (st : ClientState) (w : List TransportOutcome)
    (trigger_name : String) (payload : PyVal) : OpResult PyVal :=
  if st.connected then
    call st w "report_trigger"
      (some (.pydict [("trigger_name", .pystr trigger_name), ("payload", payload)]))
  else ⟨.error (.connectionError "Not connected to agent" none), st, w, [], []⟩

/-- The per-entry check of `upload_logs`:
`all(key in log_entry for key in ['level', 'message', 'timestamp'])`. -/
def validEntry (e : PyVal) : Except PyErr Bool := do
  let a ← pyContains e "level"
  let b ← pyContains e "message"
  let c ← pyContains e "timestamp"
  pure (a && b && c)

/-- The validation loop of `upload_logs`: the first invalid entry raises
`ValueError`. -/
def validateLogs : List PyVal → Except PyErr Unit
  | [] => .ok ()
  | e :: rest =>
    match validEntry e with
    | .error err => .error err
    | .ok false =>
      .error (.valueError "Log entries must contain level, message and timestamp fields")
    | .ok true => validateLogs rest

/-- `StavilyAgentClient.upload_logs`: requires the flag, validates every
entry before any socket work, then calls `"upload_logs"` with
`{"logs": logs}`. -/
def upload_logs (st : ClientState) (w : List TransportOutcome)
    (logs : List PyVal) : OpResult PyVal :=
  if st.connected then
    match validateLogs logs with
    | .error e => ⟨.error e, st, w, [], []⟩
    | .ok _ => call st w "upload_logs" (some (.pydict [("logs", .pylist logs)]))
  else ⟨.error (.connectionError "Not connected to agent" none), st, w, [], []⟩

/-- The `AgentInfo` dataclass. -/
structure AgentInfo : Type where
  agent_id : PyVal
  version : PyVal
  environment : PyVal

/-- `StavilyAgentClient.get_agent_info`: calls `"get_agent_info"` with no
params and reads the three fields off the result with `.get(_, "unknown")`. -/
def get_agent_info (st : ClientState) (w : List TransportOutcome) : OpResult AgentInfo :=
  if st.connected then
    let c := call st w "get_agent_info" none
    match c.res with
    | .error e => ⟨.error e, c.state, c.world, c.sent, c.sleeps⟩
    | .ok r =>
      let info : Except PyErr AgentInfo := do
        let a ← pyGetDefault r "agent_id" (.pystr "unknown")
        let v ← pyGetDefault r "version" (.pystr "unknown")
        let en ← pyGetDefault r "environment" (.pystr "unknown")
        pure ⟨a, v, en⟩
      ⟨info, c.state, c.world, c.sent, c.sleeps⟩
  else ⟨.error (.connectionError "Not connected to agent" none), st, w, [], []⟩

/-- `StavilyAgentClient.get_config`: calls `"get_config"` with
`{"section": sect}` and returns `result.get("config", {})`. -/
def get_config (st : ClientState) (w : List TransportOutcome)
    (sect : String) : OpResult PyVal :=
  if st.connected then
    let c := call st w "get_config" (some (.pydict [("section", .pystr sect)]))
    match c.res with
    | .error e => ⟨.error e, c.state, c.world, c.sent, c.sleeps⟩
    | .ok r => ⟨pyGetDefault r "config" (.pydict []), c.state, c.world, c.sent, c.sleeps⟩
  else ⟨.error (.connectionError "Not connected to agent" none), st, w, [], []⟩

/-- A driver issuing a sequence of raw calls on one client instance,
collecting every request envelope issued (models "N sequential calls"). -/
def runCalls (st : ClientState) (w : List TransportOutcome) :
    List (String × Option PyVal) → ClientState × List TransportOutcome × List RPCRequest
  | [] => (st, w, [])
  | (m, p) :: rest =>
    let c := call st w m p
    let r := runCalls c.state c.world rest
    (r.1, r.2.1, c.sent ++ r.2.2)

end StavilyAgentClient

/-- State of one `SystemMonitor`: the three configuration reads done by
`__init__` plus the agent client.  Thresholds are modelled as rationals,
matching the numeric config values the ThresholdConfig data model allows
(`__init__` always ends up holding a client, since it raises otherwise). -/
structure MonitorState : Type where
  monitorInterval : Rat
  cpuTrigger : Rat
  memTrigger : Rat
  client : ClientState

namespace SystemMonitor

/-- The CPU branch condition of `should_trigger` (monitor.py lines 64-67):
returns `some p` with the looked-up `cpu_percent` value exactly when the
fire branch is taken, `none` when it is not, and an exception when the
condition evaluation itself raises.  The value check is
`cpu_percent is not None and isinstance(cpu_percent, (int, float)) and
cpu_percent > self.cpu_trigger`. -/
def cpuFireVal (cpuTrigger : Rat) (data : List (String × PyVal)) :
    Except PyErr (Option PyVal) :=
  if cpuTrigger > 0 then
    match slookup data "cpu" with
    | none => .ok none
    | some cpuv =>
      match pyContains cpuv "cpu_percent" with
      | .error e => .error e
      | .ok false => .ok none
      | .ok true =>
        match pyGetItem cpuv "cpu_percent" with
        | .error e => .error e
        | .ok p =>
          match pyNumQ p with
          | some q => .ok (if q > cpuTrigger then some p else none)
          | none => .ok none
  else .ok none

/-- The memory branch condition of `should_trigger` (monitor.py lines
91-94).  Unlike the CPU branch there is no `isinstance` guard: the check is
`mem_percent is not None and mem_percent > self.mem_trigger`, so a present,
non-`None`, non-numeric value raises `TypeError` at the comparison. -/
def memFireVal (memTrigger : Rat) (data : List (String × PyVal)) :
    Except PyErr (Option PyVal) :=
  if memTrigger > 0 then
    match slookup data "memory" with
    | none => .ok none
    | some memv =>
      match pyContains memv "virtual_memory" with
      | .error e => .error e
      | .ok false => .ok none
      | .ok true =>
        match pyGetItem memv "virtual_memory" with
        | .error e => .error e
        | .ok vmv =>
          match pyContains vmv "percent" with
          | .error e => .error e
          | .ok false => .ok none
          | .ok true =>
            match pyGetItem vmv "percent" with
            | .error e => .error e
            | .ok p =>
              match p with
              | .pynone => .ok none
              | _ =>
                match pyGtNum p memTrigger with
                | .error e => .error e
                | .ok b => .ok (if b then some p else none)
  else .ok none

/-- Fire/no-fire view of the CPU branch condition. -/
def cpuFireCond (t : Rat) (data : List (String × PyVal)) : Except PyErr Bool :=
  (cpuFireVal t data).map Option.isSome

/-- Fire/no-fire view of the memory branch condition. -/
def memFireCond (t : Rat) (data : List (String × PyVal)) : Except PyErr Bool :=
  (memFireVal t data).map Option.isSome

/-- `data.get('timestamp', datetime.datetime.now().isoformat())`; the
wall-clock reading is the explicit `now` argument. -/
def tsDefault (data : List (String × PyVal)) (now : String) : PyVal :=
  (slookup data "timestamp").getD (.pystr now)

/-- The whole CPU block of `should_trigger` (monitor.py lines 63-88): when
the fire branch is taken and the client is connected, `report_trigger
("cpu_high", ...)` is issued and any `StavilyAgentError` from it is caught
and logged; other exceptions propagate. -/
def checkCpu (m : MonitorState) (data : List (String × PyVal)) (now : String)
    (w : List TransportOutcome) : OpResult Bool :=
  match cpuFireVal m.cpuTrigger data with
  | .error e => ⟨.error e, m.client, w, [], []⟩
  | .ok none => ⟨.ok false, m.client, w, [], []⟩
  | .ok (some p) =>
    if m.client.connected then
      let c := StavilyAgentClient.report_trigger m.client w "cpu_high"
        (.pydict [("usage", p), ("threshold", .pyfloat m.cpuTrigger),
                  ("timestamp", tsDefault data now)])
      match c.res with
      | .ok _ => ⟨.ok true, c.state, c.world, c.sent, c.sleeps⟩
      | .error e =>
        if isStavilyAgentError e then ⟨.ok true, c.state, c.world, c.sent, c.sleeps⟩
        else ⟨.error e, c.state, c.world, c.sent, c.sleeps⟩
    else ⟨.ok true, m.client, w, [], []⟩

/-- The whole memory block of `should_trigger` (monitor.py lines 90-112),
mirroring `checkCpu` with method name `"memory_high"`. -/
def checkMem (m : MonitorState) (data : List (String × PyVal)) (now : String)
    (w : List TransportOutcome) : OpResult Bool :=
  match memFireVal m.memTrigger data with
  | .error e => ⟨.error e, m.client, w, [], []⟩
  | .ok none => ⟨.ok false, m.client, w, [], []⟩
  | .ok (some p) =>
    if m.client.connected then
      let c := StavilyAgentClient.report_trigger m.client w "memory_high"
        (.pydict [("usage", p), ("threshold", .pyfloat m.memTrigger),
                  ("timestamp", tsDefault data now)])
      match c.res with
      | .ok _ => ⟨.ok true, c.state, c.world, c.sent, c.sleeps⟩
      | .error e =>
        if isStavilyAgentError e then ⟨.ok true, c.state, c.world, c.sent, c.sleeps⟩
        else ⟨.error e, c.state, c.world, c.sent, c.sleeps⟩
    else ⟨.ok true, m.client, w, [], []⟩

/-- `SystemMonitor.should_trigger`: runs the CPU block, then the memory
block, and returns `triggered`, the disjunction of the two fire decisions. -/
def should_trigger (m : MonitorState) (data : List (String × PyVal)) (now : String)
    (w : List TransportOutcome) : OpResult Bool :=
  let c := checkCpu m data now w
  match c.res with
  | .error _ => c
  | .ok cpuF =>
    let c2 := checkMem { m with client := c.state } data now c.world
    match c2.res with
    | .error e => ⟨.error e, c2.state, c2.world, c.sent ++ c2.sent, c.sleeps ++ c2.sleeps⟩
    | .ok memF =>
      ⟨.ok (cpuF || memF), c2.state, c2.world, c.sent ++ c2.sent, c.sleeps ++ c2.sleeps⟩

/-- The pure fire/no-fire decision induced by `should_trigger` on the
sample and the thresholds alone. -/
def triggerDecision (ct mt : Rat) (data : List (String × PyVal)) : Except PyErr Bool :=
  match cpuFireCond ct data with
  | .error e => .error e
  | .ok a =>
    match memFireCond mt data with
    | .error e => .error e
    | .ok b => .ok (a || b)

end SystemMonitor

/-- The spec-side description of "the sample contains a numeric value for
the CPU metric": the `cpu` section is a mapping holding `cpu_percent` with
a numeric value.  Written from the wording of claim C1/spec section 4.3,
for comparison against the code-derived `cpuFireCond`. -/
def sampleCpuNum (data : List (String × PyVal)) : Option Rat :=
  match slookup data "cpu" with
  | some (.pydict c) => (slookup c "cpu_percent").bind pyNumQ
  | _ => none

/-- The spec-side numeric memory reading (`memory.virtual_memory.percent`),
written from the claim wording like `sampleCpuNum`. -/
def sampleMemNum (data : List (String × PyVal)) : Option Rat :=
  match slookup data "memory" with
  | some (.pydict mm) =>
    match slookup mm "virtual_memory" with
    | some (.pydict vm) => (slookup vm "percent").bind pyNumQ
    | _ => none
  | _ => none

/-- The spec-side fire predicate of claim C1: the configured threshold is
positive, the metric value is numeric, and it strictly exceeds the
threshold. -/
def specFires (t : Rat) (v : Option Rat) : Bool :=
  decide (t > 0) && (match v with | some q => decide (q > t) | none => false)

/-- Samples whose sections have the shapes the Sample data model gives
them: the `cpu` section, the `memory` section, and the latter's
`virtual_memory` sub-section are mappings when present (metric values
themselves stay arbitrary). -/
def wellFormedSample (data : List (String × PyVal)) : Bool :=
  (match slookup data "cpu" with
   | some (.pydict _) => true
   | some _ => false
   | none => true) &&
  (match slookup data "memory" with
   | some (.pydict mm) =>
     (match slookup mm "virtual_memory" with
      | some (.pydict _) => true
      | some _ => false
      | none => true)
   | some _ => false
   | none => true)

/-- Whether the memory reading is evaluable by the memory branch without a
`TypeError`: the `percent` value is absent, `None`, or numeric. -/
def memValueOk (data : List (String × PyVal)) : Bool :=
  match slookup data "memory" with
  | some (.pydict mm) =>
    match slookup mm "virtual_memory" with
    | some (.pydict vm) =>
      match slookup vm "percent" with
      | some p => (match p with | .pynone => true | _ => isNumericVal p)
      | none => true
    | _ => true
  | _ => true

/-- The plugin configuration fields the monitor and the validator read
(`config.get` with defaults 30 / 0 / 0). -/
structure PluginConfig : Type where
  monitor_interval : Option Rat
  cpu_trigger_percentage : Option Rat
  mem_trigger_percentage : Option Rat

/-- `validate_monitor_args` from `src/utils/validation.py`. -/
def validate_monitor_args (cpu mem : Rat) : Except PyErr Unit :=
  if cpu < 0 ∨ cpu > 100 then
    .error (.validationError "CPU trigger percentage must be between 0 and 100")
  else if mem < 0 ∨ mem > 100 then
    .error (.validationError "Memory trigger percentage must be between 0 and 100")
  else .ok ()

/-- `validate_monitor_interval` from `src/utils/validation.py`. -/
def validate_monitor_interval (interval : Rat) : Except PyErr Unit :=
  if interval < 0 then .error (.validationError "Monitor interval must be non-negative")
  else .ok ()

/-- `validate_config` from `src/utils/validation.py`. -/
def validate_config (cfg : PluginConfig) : Except PyErr Unit :=
  match validate_monitor_args (cfg.cpu_trigger_percentage.getD 0)
      (cfg.mem_trigger_percentage.getD 0) with
  | .error e => .error e
  | .ok _ => validate_monitor_interval (cfg.monitor_interval.getD 30)

/-- `SystemMonitor.__init__` (monitor.py lines 22-46): reads the three
config values with defaults, builds a default client from the environment
socket variable and calls `connect()`.  It never calls `validate_config`.
On any failure it executes `raise f"..."`, and raising a `str` in Python 3
is itself a `TypeError` (exceptions must derive from `BaseException`). -/
def SystemMonitor.init (cfg : PluginConfig) (envSocket : Option String)
    (w : List TransportOutcome) : Except PyErr (MonitorState × List TransportOutcome) :=
  match StavilyAgentClient.mkDefault envSocket with
  | .error _ => .error (.typeError "exceptions must derive from BaseException")
  | .ok st =>
    let c := StavilyAgentClient.connect st w
    match c.res with
    | .error _ => .error (.typeError "exceptions must derive from BaseException")
    | .ok _ =>
      .ok (⟨cfg.monitor_interval.getD 30, cfg.cpu_trigger_percentage.getD 0,
            cfg.mem_trigger_percentage.getD 0, c.state⟩, c.world)

/-- `Except.isOk` spelled out for the embedded results. -/
def resOk {α : Type} : Except PyErr α → Bool
  | .ok _ => true
  | .error _ => false

/-- A freshly constructed default client (disconnected, request id 0). -/
def clientDisc : ClientState := ⟨5, 3, 1, 0, false⟩

/-- A default client whose flag is Connected, request id 0. -/
def clientConn : ClientState := ⟨5, 3, 1, 0, true⟩

/-- Scenario C client: default retries, `retry_delay = 0`. -/
def clientScenC : ClientState := ⟨5, 3, 0, 0, false⟩

/-- A successful peer response (a `result` member, no `error` member). -/
def respOkPing : TransportOutcome := .response [("result", .pydict [("status", .pystr "ok")])]

/-- Scenario E peer response: an `error` member with code -32601. -/
def respMethodNotFound : List (String × PyVal) :=
  [("id", .pyint 1),
   ("error", .pydict [("code", .pyint (-32601)), ("message", .pystr "method not found")])]

/-- A peer response carrying neither a `result` nor an `error` member. -/
def respBare : List (String × PyVal) := [("id", .pyint 1)]

/-- A sample whose memory percent is the non-numeric string "95". -/
def sampleMemText : List (String × PyVal) :=
  [("memory", .pydict [("virtual_memory", .pydict [("percent", .pystr "95")])])]

/-- A sample whose cpu percent is the non-numeric string "95". -/
def sampleCpuText : List (String × PyVal) :=
  [("cpu", .pydict [("cpu_percent", .pystr "95")])]

/-- Scenario A sample: cpu 85.0, memory 50.0. -/
def sampleScenA : List (String × PyVal) :=
  [("cpu", .pydict [("cpu_percent", .pyfloat 85)]),
   ("memory", .pydict [("virtual_memory", .pydict [("percent", .pyfloat 50)])])]

/-- A cpu-only sample reading 85.0. -/
def sampleCpuHigh : List (String × PyVal) := [("cpu", .pydict [("cpu_percent", .pyfloat 85)])]

/-- A monitor with cpu threshold 80, memory threshold disabled, holding a
connected client. -/
def monitorEx : MonitorState := ⟨30, 80, 0, clientConn⟩

/-- A configuration whose cpu threshold 150 fails validation. -/
def cfgOutOfRange : PluginConfig := ⟨some 30, some 150, some 50⟩

namespace StavilyAgentClient

theorem call_state (st : ClientState) (w : List TransportOutcome) (m : String)
    (p : Option PyVal) : (call st w m p).state = { st with requestId := st.requestId + 1 } := rfl

@[simp] theorem call_connected (st : ClientState) (w : List TransportOutcome) (m : String)
    (p : Option PyVal) : (call st w m p).state.connected = st.connected := rfl

@[simp] theorem call_retryDelay (st : ClientState) (w : List TransportOutcome) (m : String)
    (p : Option PyVal) : (call st w m p).state.retryDelay = st.retryDelay := rfl

@[simp] theorem call_world (st : ClientState) (w : List TransportOutcome) (m : String)
    (p : Option PyVal) : (call st w m p).world = w.tail := rfl

@[simp] theorem call_requestId (st : ClientState) (w : List TransportOutcome) (m : String)
    (p : Option PyVal) : (call st w m p).state.requestId = st.requestId + 1 := rfl

@[simp] theorem call_sent_length (st : ClientState) (w : List TransportOutcome) (m : String)
    (p : Option PyVal) : (call st w m p).sent.length = 1 := rfl

@[simp] theorem call_sent_id (st : ClientState) (w : List TransportOutcome) (m : String)
    (p : Option PyVal) : ((call st w m p).sent.map fun r => r.id) = [st.requestId + 1] := rfl

theorem call_sent_ping (st : ClientState) (w : List TransportOutcome) :
    (call st w "ping" (some (.pydict []))).sent =
      [⟨"2.0", "ping", st.requestId + 1, none⟩] := rfl

theorem resOk_call (st : ClientState) (w : List TransportOutcome) (m : String)
    (p : Option PyVal) : resOk (call st w m p).res = outcomeOk (headOutcome w) := by
  simp only [call, outcomeOk]
  cases h : headOutcome w <;> simp [resOk]
  case response r =>
    cases hh : slookup r "error" <;> simp [hh, resOk]

theorem resOk_false_error {α : Type} (r : Except PyErr α) (h : resOk r = false) :
    ∃ e, r = .error e := by
  cases r with
  | ok v => simp [resOk] at h
  | error e => exact ⟨e, rfl⟩

theorem headOutcome_fail (w : List TransportOutcome)
    (h : ∀ o ∈ w, outcomeOk o = false) : outcomeOk (headOutcome w) = false := by
  cases w with
  | nil => rfl
  | cons o rest => exact h o (List.mem_cons_self o rest)

theorem tail_fail (w : List TransportOutcome)
    (h : ∀ o ∈ w, outcomeOk o = false) : ∀ o ∈ w.tail, outcomeOk o = false := by
  cases w with
  | nil => simp
  | cons o rest => exact fun x hx => h x (List.mem_cons_of_mem o hx)

theorem call_fail (st : ClientState) (w : List TransportOutcome) (m : String) (p : Option PyVal)
    (h : ∀ o ∈ w, outcomeOk o = false) : ∃ e, (call st w m p).res = .error e :=
  resOk_false_error _ (by rw [resOk_call]; exact headOutcome_fail w h)

theorem call_res_state_free (s1 s2 : ClientState) (w : List TransportOutcome)
    (m : String) (p : Option PyVal) : (call s1 w m p).res = (call s2 w m p).res := rfl

theorem tail_drop_outcomes (w : List TransportOutcome) (n : Nat) :
    w.tail.drop n = w.drop (n + 1) := by
  cases w with
  | nil => simp
  | cons o rest => rfl

theorem connectAux_fail (total : Nat) (fuel : Nat) :
    ∀ (st : ClientState) (w : List TransportOutcome), st.connected = false →
    (∀ o ∈ w, outcomeOk o = false) →
    (connectAux total (fuel + 1) st w).sent.length = fuel + 1 ∧
    (connectAux total (fuel + 1) st w).sleeps = List.replicate fuel st.retryDelay ∧
    (connectAux total (fuel + 1) st w).state.connected = false ∧
    ∃ e, (connectAux total (fuel + 1) st w).res = .error (.connectionError
        (connectFailMsg total) (some e)) ∧
      (call st (w.drop fuel) "ping" (some (.pydict []))).res = .error e := by
  induction fuel with
  | zero =>
    intro st w hc hw
    obtain ⟨e, he⟩ := call_fail st w "ping" (some (.pydict [])) hw
    simp only [connectAux]
    rw [he]
    exact ⟨by simp, by simp, by simp [hc], e, by simp, by simpa using he⟩
  | succ f ih =>
    intro st w hc hw
    obtain ⟨e, he⟩ := call_fail st w "ping" (some (.pydict [])) hw
    have hrest := ih (call st w "ping" (some (.pydict []))).state
      (call st w "ping" (some (.pydict []))).world (by simp [hc])
      (by rw [call_world]; exact tail_fail w hw)
    show (connectAux total (f + 2) st w).sent.length = f + 1 + 1 ∧ _ ∧ _ ∧ _
    simp only [connectAux]
    rw [he]
    refine ⟨?_, ?_, ?_, ?_⟩
    · have h1 := hrest.1
      simp only [call_world] at h1
      simp
      omega
    · simpa [List.replicate_succ] using hrest.2.1
    · simpa using hrest.2.2.1
    · obtain ⟨e2, hr1, hr2⟩ := hrest.2.2.2
      refine ⟨e2, by simpa using hr1, ?_⟩
      rw [call_world, tail_drop_outcomes] at hr2
      exact hr2

theorem connectAux_ping (total : Nat) (fuel : Nat) :
    ∀ (st : ClientState) (w : List TransportOutcome),
    ∀ r ∈ (connectAux total fuel st w).sent, r.method = "ping" ∧ r.params = none := by
  induction fuel with
  | zero => intro st w r hr; simp [connectAux] at hr
  | succ f ih =>
    intro st w r hr
    cases f with
    | zero =>
      simp only [connectAux] at hr
      cases he : (call st w "ping" (some (.pydict []))).res with
      | ok v =>
        rw [he, call_sent_ping] at hr
        simp at hr
        subst hr
        exact ⟨rfl, rfl⟩
      | error e =>
        rw [he, call_sent_ping] at hr
        simp at hr
        subst hr
        exact ⟨rfl, rfl⟩
    | succ f' =>
      rw [show f' + 1 + 1 = f' + 2 from rfl] at hr
      simp only [connectAux] at hr
      cases he : (call st w "ping" (some (.pydict []))).res with
      | ok v =>
        rw [he, call_sent_ping] at hr
        simp at hr
        subst hr
        exact ⟨rfl, rfl⟩
      | error e =>
        rw [he, call_sent_ping] at hr
        simp only [List.cons_append, List.nil_append, List.mem_cons] at hr
        rcases hr with hr | hr
        · subst hr
          exact ⟨rfl, rfl⟩
        · exact ih _ _ r hr

theorem connectAux_connected (total : Nat) (fuel : Nat) :
    ∀ (st : ClientState) (w : List TransportOutcome), st.connected = false →
    (connectAux total fuel st w).state.connected = resOk (connectAux total fuel st w).res := by
  induction fuel with
  | zero => intro st w hc; simp [connectAux, resOk, hc]
  | succ f ih =>
    intro st w hc
    cases f with
    | zero =>
      simp only [connectAux]
      cases he : (call st w "ping" (some (.pydict []))).res with
      | ok v => simp [resOk]
      | error e => simp [resOk, hc]
    | succ f' =>
      show (connectAux total (f' + 2) st w).state.connected = _
      simp only [connectAux]
      cases he : (call st w "ping" (some (.pydict []))).res with
      | ok v => simp [resOk]
      | error e =>
        simpa using ih (call st w "ping" (some (.pydict []))).state
          (call st w "ping" (some (.pydict []))).world (by simp [hc])

theorem connect_noop (st : ClientState) (w : List TransportOutcome)
    (h : st.connected = true) : connect st w = ⟨.ok (), st, w, [], []⟩ := by
  simp [connect, h]

theorem connect_connected (st : ClientState) (w : List TransportOutcome) :
    (connect st w).state.connected = resOk (connect st w).res := by
  cases h : st.connected with
  | true => simp [connect, h, resOk]
  | false => simp only [connect, h]; simpa using connectAux_connected _ _ st w h

@[simp] theorem report_trigger_connected (st : ClientState) (w : List TransportOutcome)
    (tn : String) (payload : PyVal) :
    (report_trigger st w tn payload).state.connected = st.connected := by
  cases h : st.connected <;> simp [report_trigger, h]

@[simp] theorem upload_logs_connected (st : ClientState) (w : List TransportOutcome)
    (logs : List PyVal) : (upload_logs st w logs).state.connected = st.connected := by
  cases h : st.connected
  · simp [upload_logs, h]
  · cases hv : validateLogs logs <;> simp [upload_logs, h, hv]

@[simp] theorem get_agent_info_connected (st : ClientState) (w : List TransportOutcome) :
    (get_agent_info st w).state.connected = st.connected := by
  cases h : st.connected
  · simp [get_agent_info, h]
  · cases hr : (call st w "get_agent_info" none).res <;> simp [get_agent_info, h, hr]

@[simp] theorem get_config_connected (st : ClientState) (w : List TransportOutcome)
    (sect : String) : (get_config st w sect).state.connected = st.connected := by
  cases h : st.connected
  · simp [get_config, h]
  · cases hr : (call st w "get_config" (some (.pydict [("section", .pystr sect)]))).res <;>
      simp [get_config, h, hr]

end StavilyAgentClient

namespace StavilyAgentClient

theorem runCalls_ids (ops : List (String × Option PyVal)) :
    ∀ (st : ClientState) (w : List TransportOutcome),
    ((runCalls st w ops).2.2.map fun r => r.id) =
      List.range' (st.requestId + 1) ops.length := by
  induction ops with
  | nil => intro st w; simp [runCalls]
  | cons op rest ih =>
    intro st w
    obtain ⟨m, p⟩ := op
    have hr := ih (call st w m p).state (call st w m p).world
    simp only [call_requestId] at hr
    simp only [runCalls, List.map_append, call_sent_id, hr, List.length_cons]
    rw [List.range'_succ]
    simp

/-- Claim C3: each request built by the call path carries id
`_request_id + 1` and advances the counter by one, so the first N requests
issued by one fresh client instance carry ids exactly 1..N in order. -/
theorem C3_request_ids (st : ClientState) (w : List TransportOutcome) (m : String)
    (p : Option PyVal) (ops : List (String × Option PyVal)) :
    ((call st w m p).sent.map fun r => r.id) = [st.requestId + 1] ∧
    (call st w m p).state.requestId = st.requestId + 1 ∧
    (st.requestId = 0 →
      ((runCalls st w ops).2.2.map fun r => r.id) = List.range' 1 ops.length) := by
  refine ⟨call_sent_id st w m p, call_requestId st w m p, fun h0 => ?_⟩
  have h := runCalls_ids ops st w
  rw [h0] at h
  simpa using h

theorem C3_witness :
    ((runCalls clientDisc [] [("ping", none), ("get_agent_info", none), ("ping", none)]).2.2.map
      fun r => r.id) = [1, 2, 3] :=
  ((C3_request_ids clientDisc [] "ping" none
    [("ping", none), ("get_agent_info", none), ("ping", none)]).2.2 rfl).trans (by rfl)

/-- Claim C2: the connection flag is changed to Connected only by a
`connect()` whose ping probe succeeded, to Disconnected only by
`disconnect()`, and no RPC operation (nor any failure inside the call
path) changes it. -/
theorem C2_connection_flag (st : ClientState) (w : List TransportOutcome)
    (tn : String) (payload : PyVal) (logs : List PyVal) (sect m : String)
    (p : Option PyVal) :
    (report_trigger st w tn payload).state.connected = st.connected ∧
    (upload_logs st w logs).state.connected = st.connected ∧
    (get_agent_info st w).state.connected = st.connected ∧
    (get_config st w sect).state.connected = st.connected ∧
    (call st w m p).state.connected = st.connected ∧
    (disconnect st).connected = false ∧
    (connect st w).state.connected = resOk (connect st w).res ∧
    (st.connected = true → (connect st w).state.connected = true) ∧
    (st.connected = false → (∀ o ∈ w, outcomeOk o = false) →
      (connect st w).state.connected = false) ∧
    (st.connected = false → ∀ r ∈ (connect st w).sent, r.method = "ping") := by
  refine ⟨report_trigger_connected st w tn payload, upload_logs_connected st w logs,
    get_agent_info_connected st w, get_config_connected st w sect,
    call_connected st w m p, rfl, connect_connected st w, ?_, ?_, ?_⟩
  · intro h
    rw [connect_noop st w h]
    exact h
  · intro h hw
    have hfail := connectAux_fail (st.maxRetries + 1) st.maxRetries st w h hw
    simpa [connect, h] using hfail.2.2.1
  · intro h r hr
    simp only [connect, h] at hr
    simp at hr
    exact (connectAux_ping (st.maxRetries + 1) (st.maxRetries + 1) st w r hr).1

theorem C2_witness :
    (disconnect clientConn).connected = false ∧
    (connect clientDisc []).state.connected = false ∧
    (connect clientConn []).state.connected = true :=
  ⟨(C2_connection_flag clientConn [] "t" .pynone [] "s" "m" none).2.2.2.2.2.1,
   (C2_connection_flag clientDisc [] "t" .pynone [] "s" "m" none).2.2.2.2.2.2.2.2.1 rfl
     (by simp),
   (C2_connection_flag clientConn [] "t" .pynone [] "s" "m" none).2.2.2.2.2.2.2.1 rfl⟩

/-- Claim C4: when every ping attempt fails, `connect()` from Disconnected
performs exactly `max_retries + 1` ping attempts, sleeps the fixed
`retry_delay` exactly `max_retries` times (that is, between consecutive
attempts), and raises `ConnectionError` wrapping the error of the final
attempt — the wrapped error is pinned to be exactly the call-path error
produced on the world suffix the last attempt sees (the first
`max_retries` outcomes having been consumed by the earlier attempts). -/
theorem C4_connect_retries (st : ClientState) (w : List TransportOutcome)
    (hc : st.connected = false) (hw : ∀ o ∈ w, outcomeOk o = false) :
    (connect st w).sent.length = st.maxRetries + 1 ∧
    (∀ r ∈ (connect st w).sent, r.method = "ping" ∧ r.params = none) ∧
    (connect st w).sleeps = List.replicate st.maxRetries st.retryDelay ∧
    ∃ e, (connect st w).res = .error (.connectionError
        (connectFailMsg (st.maxRetries + 1)) (some e)) ∧
      (call st (w.drop st.maxRetries) "ping" (some (.pydict []))).res = .error e := by
  have h := connectAux_fail (st.maxRetries + 1) st.maxRetries st w hc hw
  have hp := connectAux_ping (st.maxRetries + 1) (st.maxRetries + 1) st w
  simp only [connect, hc]
  simp only [Bool.false_eq_true, if_false]
  exact ⟨h.1, hp, h.2.1, h.2.2.2⟩

theorem C4_witness :
    (connect clientScenC []).sent.length = 4 ∧
    (connect clientScenC []).sleeps = [0, 0, 0] ∧
    (connect clientScenC []).res = .error (.connectionError (connectFailMsg 4)
      (some (.connectionError
        "Socket error during RPC call to ping: connection refused" none))) := by
  have h := C4_connect_retries clientScenC [] rfl (by simp)
  refine ⟨h.1, by rw [h.2.2.1]; rfl, ?_⟩
  obtain ⟨e, hres, hcall⟩ := h.2.2.2
  have hc2 : (Except.error (PyErr.connectionError
      "Socket error during RPC call to ping: connection refused" none) :
      Except PyErr PyVal) = Except.error e := hcall
  injection hc2 with he
  subst he
  exact hres

theorem validateLogs_fails (logs : List PyVal)
    (hall : ∀ e ∈ logs, ∃ b, validEntry e = .ok b)
    (hbad : ∃ e ∈ logs, validEntry e = .ok false) :
    validateLogs logs =
      .error (.valueError "Log entries must contain level, message and timestamp fields") := by
  induction logs with
  | nil =>
    obtain ⟨e, he, _⟩ := hbad
    exact absurd he (List.not_mem_nil e)
  | cons x rest ih =>
    cases hx : validEntry x with
    | error err =>
      obtain ⟨b, hb⟩ := hall x (List.mem_cons_self x rest)
      rw [hx] at hb
      exact Except.noConfusion hb
    | ok bv =>
      cases bv with
      | false => simp [validateLogs, hx]
      | true =>
        simp only [validateLogs, hx]
        apply ih
        · exact fun e he => hall e (List.mem_cons_of_mem x he)
        · obtain ⟨e, he, hef⟩ := hbad
          rcases List.mem_cons.mp he with rfl | he'
          · rw [hx] at hef
            simp at hef
          · exact ⟨e, he', hef⟩

/-- Claim C5: `upload_logs` fails with the NotConnected error when the flag
is down, and when connected but some entry lacks one of the three required
fields it fails with `ValueError` while performing no socket I/O and
leaving the whole client state unchanged. -/
theorem C5_upload_logs_guards (st : ClientState) (w : List TransportOutcome)
    (logs : List PyVal) :
    (st.connected = false →
      upload_logs st w logs =
        ⟨.error (.connectionError "Not connected to agent" none), st, w, [], []⟩) ∧
    (st.connected = true →
      (∀ e ∈ logs, ∃ b, validEntry e = .ok b) →
      (∃ e ∈ logs, validEntry e = .ok false) →
      upload_logs st w logs =
        ⟨.error (.valueError "Log entries must contain level, message and timestamp fields"),
          st, w, [], []⟩) := by
  constructor
  · intro h
    simp [upload_logs, h]
  · intro h hall hbad
    simp [upload_logs, h, validateLogs_fails logs hall hbad]

theorem C5_witness :
    upload_logs clientConn [] [.pydict [("level", .pystr "INFO")]] =
      ⟨.error (.valueError "Log entries must contain level, message and timestamp fields"),
        clientConn, [], [], []⟩ ∧
    upload_logs clientDisc [] [.pydict [("level", .pystr "INFO")]] =
      ⟨.error (.connectionError "Not connected to agent" none), clientDisc, [], [], []⟩ := by
  constructor
  · exact (C5_upload_logs_guards clientConn [] _).2 rfl
      (by intro e he; simp at he; subst he; exact ⟨false, rfl⟩)
      ⟨.pydict [("level", .pystr "INFO")], by simp, rfl⟩
  · exact (C5_upload_logs_guards clientDisc [] _).1 rfl

/-- Claim C7: on a parsed JSON response, an `"error"` member makes the call
path fail with `RPCError` carrying the peer's code, message and data
verbatim; otherwise the `"result"` member is returned, an empty value when
absent. -/
theorem C7_response_handling (st : ClientState) (w : List TransportOutcome)
    (m : String) (p : Option PyVal) (r : List (String × PyVal)) :
    (slookup r "error" = none →
      (call st (.response r :: w) m p).res = .ok ((slookup r "result").getD .pynone)) ∧
    (∀ ev cv mv, slookup r "error" = some (.pydict ev) →
      slookup ev "code" = some cv → slookup ev "message" = some mv →
      (call st (.response r :: w) m p).res =
        .error (.rpcError cv mv (slookup ev "data"))) := by
  constructor
  · intro h
    simp [call, headOutcome, h]
  · intro ev cv mv h hcode hmsg
    simp [call, headOutcome, respError, h, hcode, hmsg]

theorem C7_witness :
    (call clientConn [.response respMethodNotFound] "report_trigger"
        (some (.pydict [("trigger_name", .pystr "cpu_high"), ("payload", .pydict [])]))).res =
      .error (.rpcError (.pyint (-32601)) (.pystr "method not found") none) := by
  have h := (C7_response_handling clientConn [] "report_trigger"
    (some (.pydict [("trigger_name", .pystr "cpu_high"), ("payload", .pydict [])]))
    respMethodNotFound).2
    [("code", .pyint (-32601)), ("message", .pystr "method not found")]
    (.pyint (-32601)) (.pystr "method not found") rfl rfl rfl
  exact h

/-- Claim C9: `disconnect()` is idempotent, performs no I/O and keeps the
request counter; `connect()` on an already-connected client is a no-op
success: no ping is issued, the world, the flag and the counter are
untouched. -/
theorem C9_idempotence (st : ClientState) (w : List TransportOutcome) :
    (disconnect st).connected = false ∧
    disconnect (disconnect st) = disconnect st ∧
    (disconnect st).requestId = st.requestId ∧
    (st.connected = true → connect st w = ⟨.ok (), st, w, [], []⟩) :=
  ⟨rfl, rfl, rfl, fun h => connect_noop st w h⟩

theorem C9_witness :
    connect clientConn [] = ⟨.ok (), clientConn, [], [], []⟩ ∧
    (disconnect (disconnect clientDisc)).connected = false :=
  ⟨(C9_idempotence clientConn []).2.2.2 rfl, (C9_idempotence (disconnect clientDisc) []).1⟩

/-- Claim C10: a response with neither `result` nor `error` makes
`get_agent_info` and `get_config` fail with `AttributeError` (field access
on the absent result, `None`), which lies outside the client error
taxonomy — the documented defaults are not returned. -/
theorem C10_missing_result (st : ClientState) (w : List TransportOutcome)
    (r : List (String × PyVal)) (sect : String)
    (hc : st.connected = true) (herr : slookup r "error" = none)
    (hres : slookup r "result" = none) :
    (get_agent_info st (.response r :: w)).res = .error (.attributeError "get") ∧
    (get_config st (.response r :: w) sect).res = .error (.attributeError "get") ∧
    isStavilyAgentError (.attributeError "get") = false := by
  have hcall : ∀ (m : String) (p : Option PyVal),
      (call st (.response r :: w) m p).res = .ok PyVal.pynone := by
    intro m p
    simp [call, headOutcome, herr, hres]
  refine ⟨?_, ?_, rfl⟩
  · simp [get_agent_info, hc, hcall, pyGetDefault, Bind.bind, Except.bind]
  · simp [get_config, hc, hcall, pyGetDefault]

theorem C10_witness :
    (get_agent_info clientConn [.response respBare]).res = .error (.attributeError "get") ∧
    (get_config clientConn [.response respBare] "plugin").res =
      .error (.attributeError "get") := by
  have h := C10_missing_result clientConn [] respBare "plugin" rfl rfl rfl
  exact ⟨h.1, h.2.1⟩

end StavilyAgentClient

theorem slookup_any (kvs : List (String × PyVal)) (k : String) :
    (kvs.any fun kv => kv.1 = k) = (slookup kvs k).isSome := by
  induction kvs with
  | nil => rfl
  | cons kv rest ih =>
    by_cases h : kv.1 = k <;> simp [slookup, h, ih]

theorem wf_cpu_dict (data : List (String × PyVal)) (hwf : wellFormedSample data = true) :
    ∀ v, slookup data "cpu" = some v → ∃ c, v = .pydict c := by
  intro v hv
  unfold wellFormedSample at hwf
  rw [hv] at hwf
  rcases v with _ | b | n | q | s | xs | c
  case pydict => exact ⟨c, rfl⟩
  all_goals simp at hwf

theorem wf_mem_dict (data : List (String × PyVal)) (hwf : wellFormedSample data = true) :
    ∀ v, slookup data "memory" = some v → ∃ mm, v = .pydict mm := by
  intro v hv
  unfold wellFormedSample at hwf
  rw [hv] at hwf
  rcases v with _ | b | n | q | s | xs | mm
  case pydict => exact ⟨mm, rfl⟩
  all_goals simp at hwf

theorem wf_vm_dict (data : List (String × PyVal)) (mm : List (String × PyVal))
    (hwf : wellFormedSample data = true) (hm : slookup data "memory" = some (.pydict mm)) :
    ∀ u, slookup mm "virtual_memory" = some u → ∃ vm, u = .pydict vm := by
  intro u hu
  unfold wellFormedSample at hwf
  simp only [hm, hu] at hwf
  rcases u with _ | b | n | q | s | xs | vm
  case pydict => exact ⟨vm, rfl⟩
  all_goals simp at hwf

theorem isSome_if_fire (p : PyVal) (c : Prop) [Decidable c] :
    (if c then some p else none).isSome = decide c := by
  by_cases h : c <;> simp [h]

theorem cpuFireCond_spec (ct : Rat) (data : List (String × PyVal))
    (hwf : wellFormedSample data = true) :
    SystemMonitor.cpuFireCond ct data = .ok (specFires ct (sampleCpuNum data)) := by
  unfold SystemMonitor.cpuFireCond SystemMonitor.cpuFireVal sampleCpuNum specFires
  by_cases hct : ct > 0
  · simp only [if_pos hct]
    cases h1 : slookup data "cpu" with
    | none => simp [hct, Except.map]
    | some cpuv =>
      obtain ⟨c, rfl⟩ := wf_cpu_dict data hwf cpuv h1
      cases h2 : slookup c "cpu_percent" with
      | none =>
        have ha : (c.any fun kv => kv.1 = "cpu_percent") = false := by
          rw [slookup_any, h2]; rfl
        simp [pyContains, ha, hct, h2, Except.map]
      | some p =>
        have ha : (c.any fun kv => kv.1 = "cpu_percent") = true := by
          rw [slookup_any, h2]; rfl
        cases h3 : pyNumQ p with
        | none => simp [pyContains, ha, pyGetItem, h2, h3, hct, Except.map, Option.bind]
        | some q =>
          simp [pyContains, ha, pyGetItem, h2, h3, hct, Except.map, Option.bind,
            isSome_if_fire]
  · simp only [if_neg hct]
    simp [hct, Except.map]


theorem memFireCond_spec (mt : Rat) (data : List (String × PyVal))
    (hwf : wellFormedSample data = true) (hok : memValueOk data = true) :
    SystemMonitor.memFireCond mt data = .ok (specFires mt (sampleMemNum data)) := by
  unfold SystemMonitor.memFireCond SystemMonitor.memFireVal sampleMemNum specFires
  by_cases hmt : mt > 0
  · simp only [if_pos hmt]
    cases h1 : slookup data "memory" with
    | none => simp [hmt, Except.map]
    | some memv =>
      obtain ⟨mm, rfl⟩ := wf_mem_dict data hwf memv h1
      cases h2 : slookup mm "virtual_memory" with
      | none =>
        have ha : (mm.any fun kv => kv.1 = "virtual_memory") = false := by
          rw [slookup_any, h2]; rfl
        simp [pyContains, ha, hmt, h1, h2, Except.map]
      | some vmu =>
        obtain ⟨vm, rfl⟩ := wf_vm_dict data mm hwf h1 vmu h2
        have ha : (mm.any fun kv => kv.1 = "virtual_memory") = true := by
          rw [slookup_any, h2]; rfl
        cases h3 : slookup vm "percent" with
        | none =>
          have hb : (vm.any fun kv => kv.1 = "percent") = false := by
            rw [slookup_any, h3]; rfl
          simp [pyContains, ha, hb, pyGetItem, h1, h2, h3, hmt, Except.map]
        | some p =>
          have hb : (vm.any fun kv => kv.1 = "percent") = true := by
            rw [slookup_any, h3]; rfl
          cases p with
          | pynone =>
            simp [pyContains, ha, hb, pyGetItem, h1, h2, h3, hmt, pyNumQ, Except.map]
          | pybool b =>
            simp [pyContains, ha, hb, pyGetItem, h1, h2, h3, hmt, pyGtNum, pyNumQ,
              Except.map, isSome_if_fire]
          | pyint n =>
            simp [pyContains, ha, hb, pyGetItem, h1, h2, h3, hmt, pyGtNum, pyNumQ,
              Except.map, isSome_if_fire]
          | pyfloat q =>
            simp [pyContains, ha, hb, pyGetItem, h1, h2, h3, hmt, pyGtNum, pyNumQ,
              Except.map, isSome_if_fire]
          | pystr s =>
            exfalso
            unfold memValueOk at hok
            simp [h1, h2, h3, isNumericVal, pyNumQ] at hok
          | pylist xs =>
            exfalso
            unfold memValueOk at hok
            simp [h1, h2, h3, isNumericVal, pyNumQ] at hok
          | pydict kvs =>
            exfalso
            unfold memValueOk at hok
            simp [h1, h2, h3, isNumericVal, pyNumQ] at hok
  · simp only [if_neg hmt]
    simp [hmt, Except.map]

theorem memFireCond_typeError (mt : Rat) (data : List (String × PyVal))
    (hwf : wellFormedSample data = true) (hbad : memValueOk data = false) (hmt : mt > 0) :
    SystemMonitor.memFireCond mt data =
      .error (.typeError "comparison not supported between these instances") := by
  unfold SystemMonitor.memFireCond SystemMonitor.memFireVal
  unfold memValueOk at hbad
  cases h1 : slookup data "memory" with
  | none => rw [h1] at hbad; simp at hbad
  | some memv =>
    obtain ⟨mm, rfl⟩ := wf_mem_dict data hwf memv h1
    rw [h1] at hbad
    cases h2 : slookup mm "virtual_memory" with
    | none => simp only [h2] at hbad; simp at hbad
    | some vmu =>
      obtain ⟨vm, rfl⟩ := wf_vm_dict data mm hwf h1 vmu h2
      have ha : (mm.any fun kv => kv.1 = "virtual_memory") = true := by
        rw [slookup_any, h2]; rfl
      simp only [h2] at hbad
      cases h3 : slookup vm "percent" with
      | none => simp only [h3] at hbad; simp at hbad
      | some p =>
        have hb : (vm.any fun kv => kv.1 = "percent") = true := by
          rw [slookup_any, h3]; rfl
        simp only [h3] at hbad
        cases p with
        | pynone => simp at hbad
        | pybool b => simp [isNumericVal, pyNumQ] at hbad
        | pyint n => simp [isNumericVal, pyNumQ] at hbad
        | pyfloat q => simp [isNumericVal, pyNumQ] at hbad
        | pystr s =>
          simp [pyContains, ha, hb, pyGetItem, h1, h2, h3, hmt, pyGtNum, pyNumQ,
            Except.map, if_pos hmt]
        | pylist xs =>
          simp [pyContains, ha, hb, pyGetItem, h1, h2, h3, hmt, pyGtNum, pyNumQ,
            Except.map, if_pos hmt]
        | pydict kvs =>
          simp [pyContains, ha, hb, pyGetItem, h1, h2, h3, hmt, pyGtNum, pyNumQ,
            Except.map, if_pos hmt]

/-- Claim C1 (amended): for every well-shaped sample the CPU branch fires
exactly when the threshold is positive and a numeric cpu value strictly
exceeds it — missing or non-numeric values never fire; the memory branch
satisfies the same characterisation whenever its value is absent, `None`
or numeric, but a present non-numeric memory value makes the evaluation
raise `TypeError` (the memory branch lacks the `isinstance` guard the CPU
branch has) instead of quietly not firing. -/
theorem C1_trigger_iff (ct mt : Rat) (data : List (String × PyVal))
    (hwf : wellFormedSample data = true) :
    SystemMonitor.cpuFireCond ct data = .ok (specFires ct (sampleCpuNum data)) ∧
    (memValueOk data = true →
      SystemMonitor.memFireCond mt data = .ok (specFires mt (sampleMemNum data))) ∧
    (memValueOk data = false → mt > 0 →
      SystemMonitor.memFireCond mt data =
        .error (.typeError "comparison not supported between these instances")) :=
  ⟨cpuFireCond_spec ct data hwf,
   fun hok => memFireCond_spec mt data hwf hok,
   fun hbad hmt => memFireCond_typeError mt data hwf hbad hmt⟩

/-- Claim C1 counterexample: with threshold 50 a sample whose memory
percent is the string "95" makes the memory evaluation raise `TypeError`
rather than produce a no-fire decision, while the CPU branch on the same
shape quietly does not fire — the claimed CPU/memory symmetry fails. -/
theorem C1_counterexample :
    SystemMonitor.memFireCond 50 sampleMemText =
      .error (.typeError "comparison not supported between these instances") ∧
    SystemMonitor.cpuFireCond 50 sampleCpuText = .ok false ∧
    wellFormedSample sampleMemText = true ∧
    specFires 50 (sampleMemNum sampleMemText) = false :=
  ⟨rfl, rfl, rfl, rfl⟩

theorem C1_witness :
    wellFormedSample sampleScenA = true ∧
    SystemMonitor.cpuFireCond 80 sampleScenA = .ok true ∧
    SystemMonitor.memFireCond 85 sampleScenA = .ok false :=
  ⟨rfl,
   ((C1_trigger_iff 80 85 sampleScenA rfl).1).trans (by rfl),
   ((C1_trigger_iff 80 85 sampleScenA rfl).2.1 rfl).trans (by rfl)⟩

namespace SystemMonitor

theorem checkCpu_connected (m : MonitorState) (data : List (String × PyVal))
    (now : String) (w : List TransportOutcome) :
    (checkCpu m data now w).state.connected = m.client.connected := by
  unfold checkCpu
  cases hf : cpuFireVal m.cpuTrigger data with
  | error e => simp
  | ok v =>
    cases v with
    | none => simp
    | some p =>
      cases hc : m.client.connected with
      | false => simp [hc]
      | true =>
        simp only [hc, if_true]
        cases hr : (StavilyAgentClient.report_trigger m.client w "cpu_high"
          (.pydict [("usage", p), ("threshold", .pyfloat m.cpuTrigger),
            ("timestamp", tsDefault data now)])).res with
        | ok v2 => simp [StavilyAgentClient.report_trigger_connected, hc]
        | error e =>
          cases hs : isStavilyAgentError e <;>
            simp [hs, StavilyAgentClient.report_trigger_connected, hc]

theorem checkMem_connected (m : MonitorState) (data : List (String × PyVal))
    (now : String) (w : List TransportOutcome) :
    (checkMem m data now w).state.connected = m.client.connected := by
  unfold checkMem
  cases hf : memFireVal m.memTrigger data with
  | error e => simp
  | ok v =>
    cases v with
    | none => simp
    | some p =>
      cases hc : m.client.connected with
      | false => simp [hc]
      | true =>
        simp only [hc, if_true]
        cases hr : (StavilyAgentClient.report_trigger m.client w "memory_high"
          (.pydict [("usage", p), ("threshold", .pyfloat m.memTrigger),
            ("timestamp", tsDefault data now)])).res with
        | ok v2 => simp [StavilyAgentClient.report_trigger_connected, hc]
        | error e =>
          cases hs : isStavilyAgentError e <;>
            simp [hs, StavilyAgentClient.report_trigger_connected, hc]

theorem checkCpu_decides (m : MonitorState) (data : List (String × PyVal))
    (now : String) (w : List TransportOutcome) (b : Bool)
    (h : (checkCpu m data now w).res = .ok b) :
    cpuFireCond m.cpuTrigger data = .ok b := by
  unfold checkCpu at h
  unfold cpuFireCond
  cases hf : cpuFireVal m.cpuTrigger data with
  | error e => rw [hf] at h; simp at h
  | ok v =>
    rw [hf] at h
    cases v with
    | none => simp at h; simp_all [Except.map]
    | some p =>
      cases hc : m.client.connected with
      | false => rw [hc] at h; simp at h; simp_all [Except.map]
      | true =>
        rw [hc] at h
        simp only [if_true] at h
        cases hr : (StavilyAgentClient.report_trigger m.client w "cpu_high"
          (.pydict [("usage", p), ("threshold", .pyfloat m.cpuTrigger),
            ("timestamp", tsDefault data now)])).res with
        | ok v2 => rw [hr] at h; simp at h; simp_all [Except.map]
        | error e =>
          rw [hr] at h
          cases hs : isStavilyAgentError e with
          | false => simp [hs] at h
          | true => simp [hs] at h; simp_all [Except.map]

theorem checkMem_decides (m : MonitorState) (data : List (String × PyVal))
    (now : String) (w : List TransportOutcome) (b : Bool)
    (h : (checkMem m data now w).res = .ok b) :
    memFireCond m.memTrigger data = .ok b := by
  unfold checkMem at h
  unfold memFireCond
  cases hf : memFireVal m.memTrigger data with
  | error e => rw [hf] at h; simp at h
  | ok v =>
    rw [hf] at h
    cases v with
    | none => simp at h; simp_all [Except.map]
    | some p =>
      cases hc : m.client.connected with
      | false => rw [hc] at h; simp at h; simp_all [Except.map]
      | true =>
        rw [hc] at h
        simp only [if_true] at h
        cases hr : (StavilyAgentClient.report_trigger m.client w "memory_high"
          (.pydict [("usage", p), ("threshold", .pyfloat m.memTrigger),
            ("timestamp", tsDefault data now)])).res with
        | ok v2 => rw [hr] at h; simp at h; simp_all [Except.map]
        | error e =>
          rw [hr] at h
          cases hs : isStavilyAgentError e with
          | false => simp [hs] at h
          | true => simp [hs] at h; simp_all [Except.map]

theorem checkCpu_nofire (m : MonitorState) (data : List (String × PyVal))
    (now : String) (w : List TransportOutcome)
    (h : cpuFireVal m.cpuTrigger data = .ok none) :
    checkCpu m data now w = ⟨.ok false, m.client, w, [], []⟩ := by
  unfold checkCpu
  rw [h]

theorem checkMem_nofire (m : MonitorState) (data : List (String × PyVal))
    (now : String) (w : List TransportOutcome)
    (h : memFireVal m.memTrigger data = .ok none) :
    checkMem m data now w = ⟨.ok false, m.client, w, [], []⟩ := by
  unfold checkMem
  rw [h]

end SystemMonitor

theorem should_trigger_connected (m : MonitorState) (data : List (String × PyVal))
    (now : String) (w : List TransportOutcome) :
    (SystemMonitor.should_trigger m data now w).state.connected = m.client.connected := by
  unfold SystemMonitor.should_trigger
  dsimp only
  cases hc1 : (SystemMonitor.checkCpu m data now w).res with
  | error e => exact SystemMonitor.checkCpu_connected m data now w
  | ok cpuF =>
    cases hc2 : (SystemMonitor.checkMem
        { m with client := (SystemMonitor.checkCpu m data now w).state } data now
        (SystemMonitor.checkCpu m data now w).world).res with
    | error e =>
      exact (SystemMonitor.checkMem_connected _ data now _).trans
        (SystemMonitor.checkCpu_connected m data now w)
    | ok memF =>
      exact (SystemMonitor.checkMem_connected _ data now _).trans
        (SystemMonitor.checkCpu_connected m data now w)

theorem should_trigger_decides (m : MonitorState) (data : List (String × PyVal))
    (now : String) (w : List TransportOutcome) (b : Bool)
    (hb : (SystemMonitor.should_trigger m data now w).res = .ok b) :
    SystemMonitor.triggerDecision m.cpuTrigger m.memTrigger data = .ok b := by
  unfold SystemMonitor.should_trigger at hb
  cases hc1 : (SystemMonitor.checkCpu m data now w).res with
  | error e => simp [hc1] at hb
  | ok cpuF =>
    simp only [hc1] at hb
    cases hc2 : (SystemMonitor.checkMem
        { m with client := (SystemMonitor.checkCpu m data now w).state } data now
        (SystemMonitor.checkCpu m data now w).world).res with
    | error e => simp [hc2] at hb
    | ok memF =>
      simp [hc2] at hb
      have h1 := SystemMonitor.checkCpu_decides m data now w cpuF hc1
      have h2 : SystemMonitor.memFireCond m.memTrigger data = .ok memF :=
        SystemMonitor.checkMem_decides
          { m with client := (SystemMonitor.checkCpu m data now w).state } data now
          (SystemMonitor.checkCpu m data now w).world memF hc2
      unfold SystemMonitor.triggerDecision
      rw [h1, h2]
      simp_all

theorem should_trigger_nofire (m : MonitorState) (data : List (String × PyVal))
    (now : String) (w : List TransportOutcome)
    (hd : SystemMonitor.triggerDecision m.cpuTrigger m.memTrigger data = .ok false) :
    SystemMonitor.should_trigger m data now w = ⟨.ok false, m.client, w, [], []⟩ := by
  have h1 : SystemMonitor.cpuFireCond m.cpuTrigger data = .ok false ∧
      SystemMonitor.memFireCond m.memTrigger data = .ok false := by
    unfold SystemMonitor.triggerDecision at hd
    cases hx : SystemMonitor.cpuFireCond m.cpuTrigger data with
    | error e => rw [hx] at hd; simp at hd
    | ok a =>
      rw [hx] at hd
      cases hy : SystemMonitor.memFireCond m.memTrigger data with
      | error e => rw [hy] at hd; simp at hd
      | ok bb =>
        rw [hy] at hd
        simp at hd
        exact ⟨by rw [hd.1], by rw [hd.2]⟩
  have hv1 : SystemMonitor.cpuFireVal m.cpuTrigger data = .ok none := by
    have hc := h1.1
    unfold SystemMonitor.cpuFireCond at hc
    cases hx : SystemMonitor.cpuFireVal m.cpuTrigger data with
    | error e => rw [hx] at hc; simp [Except.map] at hc
    | ok v =>
      rw [hx] at hc
      cases v with
      | none => rfl
      | some p => simp [Except.map] at hc
  have hv2 : SystemMonitor.memFireVal m.memTrigger data = .ok none := by
    have hc := h1.2
    unfold SystemMonitor.memFireCond at hc
    cases hx : SystemMonitor.memFireVal m.memTrigger data with
    | error e => rw [hx] at hc; simp [Except.map] at hc
    | ok v =>
      rw [hx] at hc
      cases v with
      | none => rfl
      | some p => simp [Except.map] at hc
  unfold SystemMonitor.should_trigger
  rw [SystemMonitor.checkCpu_nofire m data now w hv1]
  dsimp only
  rw [SystemMonitor.checkMem_nofire { m with client := m.client } data now w hv2]
  rfl

/-- Claim C6 (amended): trigger evaluation never touches the connection
flag and its fire/no-fire decision is a pure function of the sample and
the thresholds (the same decision results for any client state and any
transport behaviour, and when no metric fires nothing at all happens);
but evaluation is not communication-free: when a metric fires and the
client is connected, `should_trigger` issues a `report_trigger` RPC,
advancing the request-id counter. -/
theorem C6_evaluation (m : MonitorState) (data : List (String × PyVal))
    (now : String) (w : List TransportOutcome) :
    (SystemMonitor.should_trigger m data now w).state.connected = m.client.connected ∧
    (∀ b, (SystemMonitor.should_trigger m data now w).res = .ok b →
      SystemMonitor.triggerDecision m.cpuTrigger m.memTrigger data = .ok b) ∧
    (SystemMonitor.triggerDecision m.cpuTrigger m.memTrigger data = .ok false →
      SystemMonitor.should_trigger m data now w = ⟨.ok false, m.client, w, [], []⟩) :=
  ⟨should_trigger_connected m data now w,
   fun b hb => should_trigger_decides m data now w b hb,
   fun hd => should_trigger_nofire m data now w hd⟩

/-- Claim C6 counterexample: with cpu threshold 80, a sample reading 85 and
a connected client, one evaluation of `should_trigger` issues a
`report_trigger` request and advances the request-id counter from 0 to 1 —
evaluation is not free of agent communication and does not leave the
client state unchanged. -/
theorem C6_counterexample :
    (SystemMonitor.should_trigger monitorEx sampleCpuHigh "t0" [respOkPing]).sent.length = 1 ∧
    (SystemMonitor.should_trigger monitorEx sampleCpuHigh "t0" [respOkPing]).state.requestId = 1 ∧
    monitorEx.client.requestId = 0 ∧
    (SystemMonitor.should_trigger monitorEx sampleCpuHigh "t0" [respOkPing]).res = .ok true :=
  ⟨rfl, rfl, rfl, rfl⟩

theorem C6_witness :
    SystemMonitor.triggerDecision monitorEx.cpuTrigger monitorEx.memTrigger [] = .ok false ∧
    (SystemMonitor.should_trigger monitorEx [] "t0" []).state.connected =
      monitorEx.client.connected ∧
    SystemMonitor.should_trigger monitorEx [] "t0" [] =
      ⟨.ok false, monitorEx.client, [], [], []⟩ :=
  ⟨(C6_evaluation monitorEx [] "t0" []).2.1 false rfl,
   (C6_evaluation monitorEx [] "t0" []).1,
   (C6_evaluation monitorEx [] "t0" []).2.2 (by rfl)⟩

/-- Claim C8 (code bug evidence): `validate_config` rejects the
configuration with cpu threshold 150, yet `SystemMonitor.__init__` never
invokes any validator — with a reachable agent the monitor is constructed
in a runnable state carrying the invalid threshold, so the monitoring loop
would start; the claimed fail-fast validation path does not exist in the
code. -/
theorem C8_validation_not_called :
    validate_config cfgOutOfRange =
      .error (.validationError "CPU trigger percentage must be between 0 and 100") ∧
    (SystemMonitor.init cfgOutOfRange (some "/run/agent.sock") [respOkPing]).isOk = true ∧
    (SystemMonitor.init cfgOutOfRange (some "/run/agent.sock")
        [respOkPing]).toOption.map (fun mo => mo.1.cpuTrigger) = some 150 :=
  ⟨rfl, rfl, rfl⟩
